import Mathlib

/-!
Verification of the multi-persona panel-discussion module
(`psychiatrist_panel.py`): a shallow embedding of its data model and
operations, together with theorems settling the specified properties.

External effects are injected as parameters: the generative text service is
a function from the prompt to `Except String String` (errors carry the
Python exception message `str(e)`), `json.loads` is an oracle restricted to
the outcome shapes the module distinguishes, wall-clock readings
(`datetime.utcnow()`) are `Int` seconds passed in as `now`, and
`uuid.uuid4().hex` is a parameter.
-/

namespace Panel

/-! ## Python string primitives used by the module -/

/-- Python `str.strip()` with no arguments: trim whitespace on both ends. -/
def pyStrip (s : String) : String :=
  String.mk (((s.data.dropWhile Char.isWhitespace).reverse.dropWhile
    Char.isWhitespace).reverse)

/-- Python `str.lower()`; ASCII case folding covers every string the module
handles. -/
def pyLower (s : String) : String := String.mk (s.data.map Char.toLower)

/-- Python substring test `needle in hay`. -/
def pyContains (hay needle : String) : Bool := decide (needle.data <:+: hay.data)

/-- Python `sep.join(parts)`. -/
def pyJoin (sep : String) : List String → String
  | [] => ""
  | [p] => p
  | p :: q :: ps => p ++ sep ++ pyJoin sep (q :: ps)

/-- Helper for `pySplitWs`: walk the characters accumulating the current
token (reversed), emitting it at each whitespace boundary. -/
def splitWsGo : List Char → List Char → List String
  | [], acc => if acc = [] then [] else [String.mk acc.reverse]
  | c :: cs, acc =>
    if c.isWhitespace then
      (if acc = [] then [] else [String.mk acc.reverse]) ++ splitWsGo cs []
    else splitWsGo cs (c :: acc)

/-- Python `str.split()` with no arguments: split on whitespace runs,
dropping empty tokens. -/
def pySplitWs (s : String) : List String := splitWsGo s.data []

/-- Python `repr` of a list of strings, as an f-string interpolates it. -/
def pyReprStrList (l : List String) : String :=
  "[" ++ pyJoin ", " (l.map (fun s => "\x27" ++ s ++ "\x27")) ++ "]"

/-! ## Data model (source: the `PanelResponse` and `PanelSession` dataclasses
and the exchange dicts appended by `iter_panel_responses`) -/

/-- Response from a single persona in a panel discussion (dataclass
`PanelResponse`).  The wall-clock `timestamp` field is omitted: no verified
property reads it. -/
structure PanelResponse where
  persona_id : String
  persona_name : String
  response : String
  mood : String
  references : List String
  ascii_art : String
  deriving Repr, DecidableEq

/-- One user message paired with the responses produced for it: the
`{'user_message': ..., 'responses': [...]}` dict appended to
`discussion_history` by `iter_panel_responses`. -/
structure Exchange where
  user_message : String
  responses : List PanelResponse
  deriving Repr, DecidableEq

/-- An active panel discussion session (dataclass `PanelSession`).
The ISO timestamp strings `created_at` / `last_updated` are modelled as
`Int` seconds (the code parses them back with `_parse_iso_datetime` and
only ever compares differences against a TTL). -/
structure PanelSession where
  session_id : String
  panel_config_id : String
  persona_ids : List String
  has_moderator : Bool
  exchange_count : Nat
  discussion_history : List Exchange
  created_at : Int
  last_updated : Int
  deriving Repr, DecidableEq

/-- The subset of a persona's configuration dict that the module reads:
`name`, `systemPrompt` and `asciiArt` (a mood-to-art mapping).  `none`
models an absent key. -/
structure PersonaConfig where
  name : Option String := none
  systemPrompt : Option String := none
  asciiArt : List (String × String) := []
  deriving Repr, DecidableEq

/-- The subset of a panel configuration dict that `create_panel_session`
reads: its `persona_ids` list. -/
structure PanelConfigEntry where
  persona_ids : List String
  deriving Repr, DecidableEq

/-- The subset of the moderator configuration dict that
`generate_panel_summary` reads. -/
structure ModeratorConfig where
  name : Option String := none
  asciiArt : List (String × String) := []
  deriving Repr, DecidableEq

/-! ## Session management -/

/-- Source constant `SESSION_TTL_SECONDS = 60 * 30`. -/
def SESSION_TTL_SECONDS : Int := 60 * 30

/-- Source `is_session_expired`: `(now - last).total_seconds() > ttl_seconds`.
With numeric timestamps the `_parse_iso_datetime` calls always succeed, so
the `created_at` fallback and the unparseable-timestamp branch (which
returns `False`) do not arise. -/
def is_session_expired (session : PanelSession) (now : Int) (ttl_seconds : Int) : Bool :=
  decide (ttl_seconds < now - session.last_updated)

/-- The in-memory `_active_sessions` dict: an insertion-ordered association
list with (as in a Python dict) at most one entry per key. -/
def SessionStore := List (String × PanelSession)

/-- Source `get_session` acting on an explicit store: returns the looked-up
session and the (possibly pruned) store.  An expired session is popped and
`None` is returned. -/
def get_session (store : List (String × PanelSession)) (session_id : String)
    (now : Int) (ttl_seconds : Int) :
    Option PanelSession × List (String × PanelSession) :=
  match store.lookup session_id with
  | none => (none, store)
  | some session =>
    if is_session_expired session now ttl_seconds then
      (none, store.filter (fun p => p.1 != session_id))
    else
      (some session, store)

/-- Source `create_custom_panel_session`.  `uuid_hex` injects
`uuid.uuid4().hex` and `now` the dataclass timestamp defaults; the
`isinstance(persona_ids, list)` guard is vacuous in the typed embedding. -/
def create_custom_panel_session (persona_ids : List String)
    (include_moderator : Bool) (panel_config_id : String)
    (personas_config : Option (List (String × PersonaConfig)))
    (uuid_hex : String) (now : Int) : Except String PanelSession :=
  if persona_ids.length < 2 ∨ persona_ids.length > 4 then
    .error "persona_ids must contain 2-4 personas"
  else
    let check : Except String Unit :=
      match personas_config with
      | none => .ok ()
      | some pc =>
        let unknown := persona_ids.filter (fun pid => (pc.lookup pid).isNone)
        if unknown = [] then .ok ()
        else .error ("Unknown persona IDs: " ++ pyReprStrList unknown)
    match check with
    | .error e => .error e
    | .ok _ =>
      .ok { session_id := "panel-" ++ uuid_hex.take 12,
            panel_config_id := panel_config_id,
            persona_ids := persona_ids,
            has_moderator := include_moderator,
            exchange_count := 0,
            discussion_history := [],
            created_at := now,
            last_updated := now }

/-- Source `create_panel_session`.  The globals `_config_loaded` and
`_panel_configs` are passed explicitly; note that this path copies the
template's `persona_ids` without any length validation. -/
def create_panel_session (config_loaded : Bool)
    (panel_configs : List (String × PanelConfigEntry))
    (panel_config_id : String) (include_moderator : Bool)
    (uuid_hex : String) (now : Int) : Except String PanelSession :=
  if config_loaded = false then
    .error "Panel configs not loaded. Call load_panel_configs() first."
  else
    match panel_configs.lookup panel_config_id with
    | none => .error ("Panel config not found: " ++ panel_config_id)
    | some panel_config =>
      .ok { session_id := "panel-" ++ uuid_hex.take 12,
            panel_config_id := panel_config_id,
            persona_ids := panel_config.persona_ids,
            has_moderator := include_moderator,
            exchange_count := 0,
            discussion_history := [],
            created_at := now,
            last_updated := now }

/-! ## Discussion context building -/

/-- Source constant `MAX_PREVIOUS_EXCHANGES = 3`. -/
def MAX_PREVIOUS_EXCHANGES : Nat := 3

/-- Source `_get_recent_responses`: all responses of the last
`MAX_PREVIOUS_EXCHANGES` entries of `discussion_history`
(`discussion_history[-MAX_PREVIOUS_EXCHANGES:]`). -/
def _get_recent_responses (session : PanelSession) : List PanelResponse :=
  if session.discussion_history = [] then []
  else
    let recent_exchanges := session.discussion_history.drop
      (session.discussion_history.length - MAX_PREVIOUS_EXCHANGES)
    (recent_exchanges.map (fun exchange => exchange.responses)).flatten

/-- The `context_parts` list assembled by `build_discussion_context` after
all appends (source lines 440-475).  The bullet before each previous
response reproduces the source file's literal characters.  The
`persona_id` argument of the source function is used only for logging and
does not influence the parts. -/
def discussion_context_parts (session : PanelSession)
    (persona_config : PersonaConfig) (user_message : String) : List String :=
  let system_prompt := persona_config.systemPrompt.getD ""
  let head :=
    ["SYSTEM INSTRUCTIONS:\n" ++ (system_prompt ++ "\n"),
     "\nPANEL DISCUSSION CONTEXT:",
     "You are participating in a panel discussion with " ++
       (toString session.persona_ids.length ++ " therapeutic personas."),
     "Your goal is to provide your unique perspective while being aware of what others have said.\n",
     "\nUSER\x27S MESSAGE:\n" ++ (user_message ++ "\n")]
  let previous_responses := _get_recent_responses session
  if previous_responses = [] then
    head ++ ["\nPREVIOUS RESPONSES: None - you are the first panelist to respond."]
  else
    head ++
      ["\nPREVIOUS PANELIST RESPONSES:",
       "The following panel members have already responded to this message:\n"] ++
      previous_responses.map (fun r =>
        "â€¢ " ++ (r.persona_name ++ (" said: \"" ++ (r.response ++ "\"")))) ++
      ["\nINSTRUCTIONS: You may reference, build upon, challenge, or complement the insights from other panelists by mentioning them by name. However, maintain your unique therapeutic perspective and personality."]

/-- Source `build_discussion_context`: validates the user message, then
joins the context parts with newlines.  The raised `ValueError` is the
`Except.error` value. -/
def build_discussion_context (session : PanelSession) (persona_id : String)
    (persona_config : PersonaConfig) (user_message : String) :
    Except String String :=
  if user_message = "" ∨ pyStrip user_message = "" then
    .error "User message cannot be empty"
  else
    .ok (pyJoin "\n" (discussion_context_parts session persona_config user_message))

/-! ## Response generation -/

/-- Source constant `DEFAULT_MOOD`. -/
def DEFAULT_MOOD : String := "neutral"

/-- Source constant `VALID_MOODS`. -/
def VALID_MOODS : List String := ["thinking", "amused", "concerned", "shocked", "neutral"]

/-- Outcome of Python `json.loads` on a string, restricted to the shapes
the module distinguishes: a `JSONDecodeError`; a successful decode to a
non-dict value, whose subsequent `.get` call raises an `AttributeError`
carrying `exnMsg`; or a dict given by its string-valued fields.  Dict
fields holding non-string JSON values are outside the modelled scope (the
module's prompts ask for string fields). -/
inductive JsonOutcome where
  | decodeError : JsonOutcome
  | nonDict (exnMsg : String) : JsonOutcome
  | dict (fields : List (String × String)) : JsonOutcome
  deriving Repr, DecidableEq

/-- Semantics of `re.search(r'\x7b.*\x7d', text, re.DOTALL)` followed by
`.group(0)`: with a greedy `.*`, the match — when one exists — spans from
the first opening brace of `text` to its last closing brace. -/
def extractJsonSpan (text : String) : Option String :=
  let cs := text.data
  match cs.findIdx? (fun c => c == '{'), cs.reverse.findIdx? (fun c => c == '}') with
  | some i, some k =>
    let j := cs.length - 1 - k
    if i < j then some (String.mk ((cs.drop i).take (j - i + 1))) else none
  | _, _ => none

/-- Source `get_ascii_art_for_persona`: look the mood up in the persona's
`asciiArt` dict, falling back (also on an empty-string value, which is
falsy in Python) to the `neutral` art, then to a fixed default. -/
def get_ascii_art_for_persona (persona_config : PersonaConfig) (mood : String) : String :=
  let ascii_art_dict := persona_config.asciiArt
  match ascii_art_dict.lookup mood with
  | some art => if art = "" then (ascii_art_dict.lookup "neutral").getD "  (._.)  " else art
  | none => (ascii_art_dict.lookup "neutral").getD "  (._.)  "

/-- The error-fallback `PanelResponse` built in the `except` clause of
`generate_persona_response` (source lines 644-651); `e` is `str(e)` of the
caught exception. -/
def error_fallback_response (persona_id : String) (persona_config : PersonaConfig)
    (e : String) : PanelResponse :=
  { persona_id := persona_id,
    persona_name := persona_config.name.getD persona_id,
    response := "[Error: I\x27m experiencing technical difficulties. " ++ (e.take 50 ++ "]"),
    mood := "shocked",
    references := [],
    ascii_art := get_ascii_art_for_persona persona_config "shocked" }

/-- Source `generate_persona_response`.  `svc prompt` models
`client.models.generate_content(...)` returning `.text` (with `.error e`
for any exception raised by client construction or the call itself) and
`jdec` models `json.loads`.  Every exception path of the source's outer
`try` ends in `error_fallback_response`. -/
def generate_persona_response (svc : String → Except String String)
    (jdec : String → JsonOutcome) (session : PanelSession)
    (persona_id : String) (persona_config : PersonaConfig)
    (user_message : String) : PanelResponse :=
  match build_discussion_context session persona_id persona_config user_message with
  | .error e => error_fallback_response persona_id persona_config e
  | .ok context =>
    let prompt := context ++ "\n\nPlease respond in JSON format with the following structure:\n\x7b\n  \"response\": \"Your therapeutic response (2-4 sentences)\",\n  \"mood\": \"thinking | amused | concerned | shocked | neutral\"\n\x7d\n\nRespond now:"
    match svc prompt with
    | .error e => error_fallback_response persona_id persona_config e
    | .ok raw =>
      let response_text := pyStrip raw
      let response_text :=
        match extractJsonSpan response_text with
        | some span => span
        | none => response_text
      match jdec response_text with
      | .nonDict e => error_fallback_response persona_id persona_config e
      | parsed =>
        let rm : String × String :=
          match parsed with
          | .dict fields =>
            ((fields.lookup "response").getD response_text,
             (fields.lookup "mood").getD DEFAULT_MOOD)
          | _ => (response_text, DEFAULT_MOOD)
        let mood := if VALID_MOODS.contains rm.2 then rm.2 else DEFAULT_MOOD
        let response_content :=
          if rm.1 = "" ∨ pyStrip rm.1 = "" then
            "I need a moment to process this... " ++ persona_config.name.getD persona_id
          else rm.1
        { persona_id := persona_id,
          persona_name := persona_config.name.getD persona_id,
          response := response_content,
          mood := mood,
          references := [],
          ascii_art := get_ascii_art_for_persona persona_config mood }

/-! ## Reference detection -/

/-- The credential titles stripped by
`re.sub(r',\s*(PhD|MD|PsyD|LCSW).*$', '', persona_name)`. -/
def credTitles : List String := ["PhD", "MD", "PsyD", "LCSW"]

/-- Whether a character list begins with a comma followed, after optional
whitespace, by one of the credential titles — i.e. whether the regex above
matches starting here. -/
def credSuffixBegins : List Char → Bool
  | ',' :: rest =>
    credTitles.any (fun t => t.data.isPrefixOf (rest.dropWhile Char.isWhitespace))
  | _ => false

/-- Drop everything from the first position where the credential-suffix
regex matches (the `.*$` tail consumes the rest of the name). -/
def stripCredGo : List Char → List Char
  | [] => []
  | c :: rest => if credSuffixBegins (c :: rest) then [] else c :: stripCredGo rest

/-- Source `name_clean = re.sub(r',\s*(PhD|MD|PsyD|LCSW).*$', '', persona_name)`. -/
def stripCredentialSuffix (name : String) : String := String.mk (stripCredGo name.data)

/-- The per-persona loop of `detect_persona_references` (source lines
744-778), recursing over the insertion-ordered persona mapping;
`response_lower` is the lowercased response text. -/
def detectReferencesGo (response_lower : String) :
    List (String × PersonaConfig) → List String
  | [] => []
  | (persona_id, persona_data) :: rest =>
    let tail := detectReferencesGo response_lower rest
    let persona_name := persona_data.name.getD ""
    if persona_name = "" then tail
    else
      let name_clean := stripCredentialSuffix persona_name
      if pyContains response_lower (pyLower name_clean) then persona_id :: tail
      else
        let name_parts := pySplitWs name_clean
        if name_parts.length ≥ 2 then
          let partial_name := pyJoin " " (name_parts.take 2)
          if pyContains response_lower (pyLower partial_name) then persona_id :: tail
          else
            let last_name := name_parts.getLastD ""
            if last_name.length > 3 && pyContains response_lower (pyLower last_name) then
              persona_id :: tail
            else tail
        else tail

/-- Source `detect_persona_references`: scan the response text for the
known personas' names.  The function receives the full persona mapping and
has no notion of the text's author. -/
def detect_persona_references (response_text : String)
    (personas_config : List (String × PersonaConfig)) : List String :=
  detectReferencesGo (pyLower response_text) personas_config

/-! ## Turn orchestration -/

/-- Does the orchestrator need to open a new exchange?  Source line 718:
`not session.discussion_history or session.discussion_history[-1].get('user_message') != user_message`. -/
def needNewExchange (hist : List Exchange) (user_message : String) : Bool :=
  match hist.getLast? with
  | none => true
  | some exchange => exchange.user_message != user_message

/-- Source lines 718-721: append a fresh `Exchange` when the history is
empty or its last entry answers a different user message, then append `r`
to the last exchange's `responses`. -/
def pushResponse (hist : List Exchange) (user_message : String)
    (r : PanelResponse) : List Exchange :=
  let hist :=
    if needNewExchange hist user_message then
      hist ++ [{ user_message := user_message, responses := [] }]
    else hist
  match hist.getLast? with
  | none => hist
  | some exchange =>
    hist.dropLast ++ [{ exchange with responses := exchange.responses ++ [r] }]

/-- The persona loop of `iter_panel_responses` (source lines 702-723): the
list of yielded responses together with the session as mutated so far.  A
persona whose config is missing is skipped (a present-but-empty config
dict, also falsy in Python, has no counterpart in the typed embedding). -/
def runPersonas (svc : String → Except String String) (jdec : String → JsonOutcome)
    (personas_config : List (String × PersonaConfig)) (user_message : String) :
    List String → PanelSession → List PanelResponse × PanelSession
  | [], session => ([], session)
  | persona_id :: rest, session =>
    match personas_config.lookup persona_id with
    | none => runPersonas svc jdec personas_config user_message rest session
    | some persona_config =>
      let r0 := generate_persona_response svc jdec session persona_id persona_config user_message
      let r := { r0 with references := detect_persona_references r0.response personas_config }
      let session' := { session with
        discussion_history := pushResponse session.discussion_history user_message r }
      let out := runPersonas svc jdec personas_config user_message rest session'
      (r :: out.1, out.2)

/-- Source `iter_panel_responses`, drained to exhaustion: the sequence of
yielded responses plus the final session state — the exchange counter is
bumped exactly once after the loop and `last_updated` is touched (`now`
injects `datetime.utcnow()` at line 727). -/
def iter_panel_responses (svc : String → Except String String)
    (jdec : String → JsonOutcome) (session : PanelSession)
    (personas_config : List (String × PersonaConfig)) (user_message : String)
    (skip_personas : List String) (now : Int) :
    List PanelResponse × PanelSession :=
  let personas_to_ask := session.persona_ids.filter
    (fun pid => !(skip_personas.contains pid))
  let out := runPersonas svc jdec personas_config user_message personas_to_ask session
  (out.1, { out.2 with exchange_count := out.2.exchange_count + 1, last_updated := now })

/-- Source `generate_panel_responses`: defined as draining the lazy
iterator into a list (`list(iter_panel_responses(...))`). -/
def generate_panel_responses (svc : String → Except String String)
    (jdec : String → JsonOutcome) (session : PanelSession)
    (personas_config : List (String × PersonaConfig)) (user_message : String)
    (skip_personas : List String) (now : Int) :
    List PanelResponse × PanelSession :=
  iter_panel_responses svc jdec session personas_config user_message skip_personas now

/-! ## Moderator summary -/

/-- Source constant `DEFAULT_SUMMARY_THRESHOLD = 3`. -/
def DEFAULT_SUMMARY_THRESHOLD : Nat := 3

/-- Source `should_generate_summary`. -/
def should_generate_summary (session : PanelSession) (threshold : Nat) : Bool :=
  decide (session.exchange_count ≥ threshold)

/-- Outcome of `json.loads` on the summary response, restricted to the
shapes the summary code distinguishes.  A missing `key_insights` field and
an empty list are behaviourally identical (`.get('key_insights', [])`
followed by a falsiness test), so both are the empty list here. -/
inductive SummaryJsonOutcome where
  | decodeError : SummaryJsonOutcome
  | nonDict (exnMsg : String) : SummaryJsonOutcome
  | dict (summary : Option String) (key_insights : List String) : SummaryJsonOutcome
  deriving Repr, DecidableEq

/-- The fixed fallback summary returned from the `except` clause of
`generate_panel_summary` (source lines 1016-1023). -/
def fallback_summary_response : PanelResponse :=
  { persona_id := "moderator-dr-panel",
    persona_name := "Dr. Panel",
    response := "The panel has provided diverse perspectives on your situation. Key themes include understanding your feelings and finding practical solutions.",
    mood := "neutral",
    references := [],
    ascii_art := "  [M]  " }

/-- The lines of the discussion context built from the last
`DEFAULT_SUMMARY_THRESHOLD` exchanges (source lines 928-936). -/
def summaryExchangeLines (exchange : Exchange) : List String :=
  ("User: " ++ exchange.user_message) ::
    exchange.responses.map (fun r => r.persona_name ++ (": " ++ r.response))

/-- Source `context_text = '\n'.join(discussion_context)`. -/
def summary_context_text (hist : List Exchange) : String :=
  pyJoin "\n"
    (((hist.drop (hist.length - DEFAULT_SUMMARY_THRESHOLD)).map summaryExchangeLines).flatten)

/-- The summary prompt (source lines 941-953). -/
def summary_prompt (session : PanelSession) : String :=
  "You are Dr. Panel, the moderator of this therapeutic panel discussion.\n\nReview the following discussion and provide a concise summary:\n\n" ++
    (summary_context_text session.discussion_history ++
     "\n\nPlease respond in JSON format:\n\x7b\n  \"summary\": \"Brief summary of the discussion with key themes (3-5 sentences)\",\n  \"key_insights\": [\"Insight 1\", \"Insight 2\", \"Insight 3\"]\n\x7d\n\nCredit specific panelists by name when mentioning their insights.")

/-- The numbered rendering appended to the summary for each key insight
(source lines 975-978): `f"\x7bi\x7d. \x7binsight\x7d\n"` starting at 1. -/
def renderKeyInsights : Nat → List String → String
  | _, [] => ""
  | i, insight :: rest => toString i ++ (". " ++ (insight ++ "\n")) ++ renderKeyInsights (i + 1) rest

/-- One step of building `personas_mentioned` (source lines 995-1001): a
Python dict assignment keeps the first insertion position and overwrites
the value. -/
def upsertMentioned (acc : List (String × PersonaConfig)) (r : PanelResponse) :
    List (String × PersonaConfig) :=
  if acc.any (fun p => p.1 == r.persona_id) then
    acc.map (fun p =>
      if p.1 == r.persona_id then (p.1, { name := some r.persona_name }) else p)
  else acc ++ [(r.persona_id, { name := some r.persona_name })]

/-- Source `personas_mentioned`: every persona that has ever responded in
the session's history, mapped to a dict holding its display name. -/
def personasMentioned (hist : List Exchange) : List (String × PersonaConfig) :=
  hist.foldl (fun acc exchange => exchange.responses.foldl upsertMentioned acc) []

/-- Source `generate_panel_summary`.  The empty-history `ValueError` is
raised before the `try` block and therefore propagates (`Except.error`);
every failure inside the `try` — missing moderator, service error, decode
to a non-dict — lands in the fixed fallback summary. -/
def generate_panel_summary (svc : String → Except String String)
    (jdec : String → SummaryJsonOutcome) (moderator : Option ModeratorConfig)
    (session : PanelSession) : Except String PanelResponse :=
  if session.discussion_history = [] then
    .error "No discussion history to summarize. Cannot generate summary for empty session."
  else
    match moderator with
    | none => .ok fallback_summary_response
    | some moderator =>
      match svc (summary_prompt session) with
      | .error _ => .ok fallback_summary_response
      | .ok raw =>
        let response_text := pyStrip raw
        let response_text :=
          match extractJsonSpan response_text with
          | some span => span
          | none => response_text
        match jdec response_text with
        | .nonDict _ => .ok fallback_summary_response
        | parsed =>
          let summary_text :=
            match parsed with
            | .dict summary key_insights =>
              let summary_text := summary.getD response_text
              if key_insights = [] then summary_text
              else summary_text ++ ("\n\nKey Insights:\n" ++ renderKeyInsights 1 key_insights)
            | _ => response_text
          .ok { persona_id := "moderator-dr-panel",
                persona_name := moderator.name.getD "Dr. Panel",
                response := summary_text,
                mood := "neutral",
                references := detect_persona_references summary_text
                  (personasMentioned session.discussion_history),
                ascii_art := (moderator.asciiArt.lookup "neutral").getD "  [M]  " }

/-! ## Spec-side reference detector (for comparison with the source) -/

/-- Modelled from the spec (§4.5): the per-persona matching rule — strip
credential suffixes from the display name, then match the full stripped
name, or the first two tokens, or (for names of at least two tokens) the
final token when it is longer than 3 characters, all case-insensitively.
Personas with an empty display name never match. -/
def referenceRuleMatches (lowtext : String) (cfg : PersonaConfig) : Bool :=
  let persona_name := cfg.name.getD ""
  if persona_name = "" then false
  else
    let name_clean := stripCredentialSuffix persona_name
    pyContains lowtext (pyLower name_clean)
      || (decide ((pySplitWs name_clean).length ≥ 2)
          && (pyContains lowtext (pyLower (pyJoin " " ((pySplitWs name_clean).take 2)))
              || (decide (((pySplitWs name_clean).getLastD "").length > 3)
                  && pyContains lowtext (pyLower ((pySplitWs name_clean).getLastD "")))))

/-- Modelled from the spec (§4.5) as written: `detect(text, personas)`
returning, for each known persona excluding the author of the text, the
persona ids matched by the rules. -/
def detect_references_spec_author (author : String) (text : String)
    (personas : List (String × PersonaConfig)) : List String :=
  personas.filterMap (fun entry =>
    if entry.1 = author then none
    else if referenceRuleMatches (pyLower text) entry.2 then some entry.1 else none)

/-- The amended reference-detection contract: the spec's matching rules
with no author exclusion, since the source function has no notion of the
text's author. -/
def detect_references_amended (text : String)
    (personas : List (String × PersonaConfig)) : List String :=
  personas.filterMap (fun entry =>
    if referenceRuleMatches (pyLower text) entry.2 then some entry.1 else none)

/-! ## Concrete sample data for witnesses and counterexamples -/

/-- A sample persona configuration. -/
def adaConfig : PersonaConfig :=
  { name := some "Dr. Ada Sterling",
    systemPrompt := some "Be kind.",
    asciiArt := [("neutral", "(^_^)")] }

/-- A second sample persona configuration. -/
def rexConfig : PersonaConfig :=
  { name := some "Dr. Rex Hardcastle",
    systemPrompt := some "Be blunt.",
    asciiArt := [] }

/-- A sample persona mapping. -/
def samplePersonas : List (String × PersonaConfig) :=
  [("dr-ada-sterling", adaConfig), ("dr-rex-hardcastle", rexConfig)]

/-- A fresh two-persona session with no history. -/
def sampleSession : PanelSession :=
  { session_id := "panel-abc",
    panel_config_id := "custom",
    persona_ids := ["dr-ada-sterling", "dr-rex-hardcastle"],
    has_moderator := true,
    exchange_count := 0,
    discussion_history := [],
    created_at := 0,
    last_updated := 0 }

/-- A sample response already recorded in a completed exchange. -/
def sampleResponse : PanelResponse :=
  { persona_id := "dr-ada-sterling",
    persona_name := "Dr. Ada Sterling",
    response := "Take a slow breath.",
    mood := "neutral",
    references := [],
    ascii_art := "(^_^)" }

/-- A session holding one completed exchange. -/
def historySession : PanelSession :=
  { sampleSession with
    exchange_count := 1,
    discussion_history := [{ user_message := "hi", responses := [sampleResponse] }] }

/-- A one-session store. -/
def sampleStore : List (String × PanelSession) := [("panel-abc", sampleSession)]

/-- A five-persona panel template, as a configuration file may contain. -/
def bigTemplate : PanelConfigEntry :=
  { persona_ids := ["p1", "p2", "p3", "p4", "p5"] }

/-! ## Helper lemmas -/

/-- Filtering out a key from the store makes its lookup fail. -/
theorem lookup_filter_ne (store : List (String × PanelSession)) (id : String) :
    (store.filter (fun p => p.1 != id)).lookup id = none := by
  induction store with
  | nil => rfl
  | cons hd tl ih =>
    obtain ⟨k, v⟩ := hd
    rw [List.filter_cons]
    by_cases h : k = id
    · rw [if_neg (by simp [h])]
      exact ih
    · rw [if_pos (by simpa [bne_iff_ne] using h)]
      have hbeq : (id == k) = false := beq_eq_false_iff_ne.mpr (Ne.symm h)
      simp [List.lookup, hbeq, ih]

/-! ## C7 -/

/-- C7: `get_session` with injected `now` and `ttl` returns the stored
session while `now - last_activity ≤ ttl`; past the TTL it removes the
session and returns absent; an id that is not stored returns absent; and
whenever a call returns absent, repeating it on the resulting store is a
no-op that returns absent again. -/
theorem C7_get_session_ttl (store : List (String × PanelSession)) (id : String)
    (now ttl : Int) :
    (∀ s, store.lookup id = some s → now - s.last_updated ≤ ttl →
      get_session store id now ttl = (some s, store)) ∧
    (∀ s, store.lookup id = some s → ttl < now - s.last_updated →
      (get_session store id now ttl).1 = none ∧
      ((get_session store id now ttl).2).lookup id = none) ∧
    (store.lookup id = none → get_session store id now ttl = (none, store)) ∧
    ((get_session store id now ttl).1 = none →
      get_session ((get_session store id now ttl).2) id now ttl
        = (none, (get_session store id now ttl).2)) := by
  refine ⟨?_, ?_, ?_, ?_⟩
  · intro s hs hle
    simp [get_session, hs, is_session_expired, not_lt_of_le hle]
  · intro s hs hlt
    simp [get_session, hs, is_session_expired, hlt, lookup_filter_ne]
  · intro hs
    simp [get_session, hs]
  · intro h1
    rcases hl : store.lookup id with _ | s
    · simp [get_session, hl]
    · by_cases hexp : ttl < now - s.last_updated
      · have h2 : (get_session store id now ttl).2 =
            store.filter (fun p => p.1 != id) := by
          simp [get_session, hl, is_session_expired, hexp]
        rw [h2]
        simp [get_session, lookup_filter_ne]
      · exfalso
        have : (get_session store id now ttl).1 = some s := by
          simp [get_session, hl, is_session_expired, hexp]
        rw [this] at h1
        exact Option.noConfusion h1

/-- Witness for C7 at a concrete store: the sample session, expired at
`now = 2000` with `ttl = 1800`, is removed and stays absent. -/
theorem C7_get_session_ttl_witness :
    sampleStore.lookup "panel-abc" = some sampleSession ∧
    ((1800 : Int) < 2000 - sampleSession.last_updated) ∧
    (get_session sampleStore "panel-abc" 2000 1800).1 = none ∧
    ((get_session sampleStore "panel-abc" 2000 1800).2).lookup "panel-abc" = none := by
  refine ⟨rfl, by decide, ?_⟩
  exact (C7_get_session_ttl sampleStore "panel-abc" 2000 1800).2.1
    sampleSession rfl (by decide)

/-! ## C8 -/

/-- C8 counterexample: a five-persona template flows through
`create_panel_session` with no range error at all — the template creation
path performs no 2-4 validation, so it returns a session whose
`persona_ids` has length 5, contradicting the claim for that path. -/
theorem C8_counterexample :
    (create_panel_session true [("big", bigTemplate)] "big" true "abcdef123456" 0).map
      (fun s => s.persona_ids.length) = .ok 5 := rfl

/-- C8 (amended): the custom creation path enforces `2 ≤ len ≤ 4`, and
lengths 1 or 5 raise the range error whose message mentions "2-4"; the
template path copies the template's `persona_ids` unvalidated, so its
sessions satisfy the bound exactly when the template itself does. -/
theorem C8_amended (persona_ids : List String) (include_moderator : Bool)
    (pcid : String) (pcfg : Option (List (String × PersonaConfig)))
    (uuid_hex : String) (now : Int) (loaded : Bool)
    (panel_configs : List (String × PanelConfigEntry)) (tid : String) :
    (∀ s, create_custom_panel_session persona_ids include_moderator pcid pcfg uuid_hex now
        = .ok s → 2 ≤ s.persona_ids.length ∧ s.persona_ids.length ≤ 4) ∧
    (persona_ids.length = 1 ∨ persona_ids.length = 5 →
      create_custom_panel_session persona_ids include_moderator pcid pcfg uuid_hex now
        = .error "persona_ids must contain 2-4 personas") ∧
    pyContains "persona_ids must contain 2-4 personas" "2-4" = true ∧
    (∀ entry s, panel_configs.lookup tid = some entry →
      create_panel_session loaded panel_configs tid include_moderator uuid_hex now = .ok s →
      s.persona_ids = entry.persona_ids) := by
  refine ⟨?_, ?_, by decide, ?_⟩
  · intro s hs
    unfold create_custom_panel_session at hs
    by_cases hlen : persona_ids.length < 2 ∨ persona_ids.length > 4
    · rw [if_pos hlen] at hs
      exact absurd hs (by simp)
    · rw [if_neg hlen] at hs
      push_neg at hlen
      rcases pcfg with _ | pc
      · simp only [Except.ok.injEq] at hs
        subst hs
        exact ⟨hlen.1, hlen.2⟩
      · by_cases hunk : persona_ids.filter (fun pid => ((pc.lookup pid).isNone : Bool)) = []
        · simp only [hunk, if_pos] at hs
          simp only [Except.ok.injEq] at hs
          subst hs
          exact ⟨hlen.1, hlen.2⟩
        · simp only [hunk, if_neg] at hs
          exact absurd hs (by simp)
  · intro hlen
    have h : persona_ids.length < 2 ∨ persona_ids.length > 4 := by
      rcases hlen with h1 | h5
      · exact Or.inl (by omega)
      · exact Or.inr (by omega)
    unfold create_custom_panel_session
    rw [if_pos h]
  · intro entry s hentry hs
    unfold create_panel_session at hs
    rcases loaded with _ | _
    · rw [if_pos rfl] at hs
      exact absurd hs (by simp)
    · rw [if_neg (by simp)] at hs
      rw [hentry] at hs
      simp only [Except.ok.injEq] at hs
      subst hs
      rfl

/-- Witness for C8 (amended): a one-persona list is rejected with the
"2-4" range error, and the five-persona template flows through unchanged. -/
theorem C8_amended_witness :
    create_custom_panel_session ["solo"] true "custom" none "abcdef123456" 0
      = .error "persona_ids must contain 2-4 personas" ∧
    (∀ s, create_panel_session true [("big", bigTemplate)] "big" true "abcdef123456" 0
        = .ok s → s.persona_ids = bigTemplate.persona_ids) := by
  constructor
  · exact (C8_amended ["solo"] true "custom" none "abcdef123456" 0 true [] "").2.1
      (Or.inl rfl)
  · intro s hs
    exact (C8_amended ["solo"] true "custom" none "abcdef123456" 0 true
      [("big", bigTemplate)] "big").2.2.2 bigTemplate s rfl hs

/-! ## C9 -/

/-- C9: `generate_panel_summary` fails with the "no discussion history"
error exactly when the history is empty; with non-empty history it always
returns a moderator `PanelResponse` (never an error), and when the
external service fails it returns the fixed fallback summary. -/
theorem C9_summary_total (svc : String → Except String String)
    (jdec : String → SummaryJsonOutcome) (moderator : Option ModeratorConfig)
    (session : PanelSession) :
    (session.discussion_history = [] →
      generate_panel_summary svc jdec moderator session
        = .error "No discussion history to summarize. Cannot generate summary for empty session.") ∧
    (session.discussion_history ≠ [] →
      ∃ r, generate_panel_summary svc jdec moderator session = .ok r ∧
        r.persona_id = "moderator-dr-panel") ∧
    (session.discussion_history ≠ [] → ∀ e,
      generate_panel_summary (fun _ => .error e) jdec moderator session
        = .ok fallback_summary_response) := by
  refine ⟨?_, ?_, ?_⟩
  · intro h
    simp [generate_panel_summary, h]
  · intro h
    unfold generate_panel_summary
    rw [if_neg h]
    rcases moderator with _ | m
    · exact ⟨fallback_summary_response, rfl, rfl⟩
    · dsimp only
      rcases hsvc : svc (summary_prompt session) with e | raw
      · exact ⟨fallback_summary_response, rfl, rfl⟩
      · dsimp only
        rcases jdec (match extractJsonSpan (pyStrip raw) with
            | some span => span
            | none => pyStrip raw) with _ | e | ⟨summ, ins⟩
        · exact ⟨_, rfl, rfl⟩
        · exact ⟨fallback_summary_response, rfl, rfl⟩
        · exact ⟨_, rfl, rfl⟩
  · intro h e
    unfold generate_panel_summary
    rw [if_neg h]
    rcases moderator with _ | m
    · rfl
    · rfl

/-- Witness for C9: the one-exchange session summarizes to a moderator
response, and with a failing service it yields the fixed fallback. -/
theorem C9_summary_total_witness :
    historySession.discussion_history ≠ [] ∧
    generate_panel_summary (fun _ => .error "timeout")
      (fun _ => SummaryJsonOutcome.decodeError) none historySession
      = .ok fallback_summary_response := by
  have h : historySession.discussion_history ≠ [] := by decide
  exact ⟨h, (C9_summary_total (fun _ => .error "timeout")
    (fun _ => SummaryJsonOutcome.decodeError) none historySession).2.2 h "timeout"⟩

/-! ## Orchestrator lemmas -/

/-- Every branch of `generate_persona_response` labels the response with
the persona that produced it. -/
theorem generate_persona_response_persona_id (svc : String → Except String String)
    (jdec : String → JsonOutcome) (session : PanelSession) (pid : String)
    (cfg : PersonaConfig) (m : String) :
    (generate_persona_response svc jdec session pid cfg m).persona_id = pid := by
  unfold generate_persona_response
  split
  · rfl
  · dsimp only
    split
    · rfl
    · split
      all_goals rfl

/-- The empty-message `ValueError` raised by the context builder. -/
theorem build_discussion_context_empty (session : PanelSession) (pid : String)
    (cfg : PersonaConfig) (m : String) (hm : pyStrip m = "") :
    build_discussion_context session pid cfg m = .error "User message cannot be empty" := by
  unfold build_discussion_context
  rw [if_pos (Or.inr hm)]

/-- A message that does not strip to the empty string passes validation. -/
theorem build_discussion_context_ok (session : PanelSession) (pid : String)
    (cfg : PersonaConfig) (m : String) (hm : pyStrip m ≠ "") :
    build_discussion_context session pid cfg m
      = .ok (pyJoin "\n" (discussion_context_parts session cfg m)) := by
  unfold build_discussion_context
  rw [if_neg]
  rintro (h1 | h2)
  · exact hm (by rw [h1]; decide)
  · exact hm h2

/-- With an empty or whitespace-only message, response generation always
lands in the error fallback via the caught `ValueError`. -/
theorem generate_persona_response_empty_message (svc : String → Except String String)
    (jdec : String → JsonOutcome) (session : PanelSession) (pid : String)
    (cfg : PersonaConfig) (m : String) (hm : pyStrip m = "") :
    generate_persona_response svc jdec session pid cfg m
      = error_fallback_response pid cfg "User message cannot be empty" := by
  unfold generate_persona_response
  rw [build_discussion_context_empty session pid cfg m hm]

/-- With a failing service call, response generation returns the error
fallback carrying the service error message. -/
theorem generate_persona_response_svc_error (jdec : String → JsonOutcome)
    (session : PanelSession) (pid : String) (cfg : PersonaConfig) (m : String)
    (e : String) (hm : pyStrip m ≠ "") :
    generate_persona_response (fun _ => .error e) jdec session pid cfg m
      = error_fallback_response pid cfg e := by
  unfold generate_persona_response
  rw [build_discussion_context_ok session pid cfg m hm]

/-- The persona loop never touches the exchange counter (it is bumped
once, afterwards, by `iter_panel_responses`). -/
theorem runPersonas_exchange_count (svc : String → Except String String)
    (jdec : String → JsonOutcome) (pc : List (String × PersonaConfig))
    (m : String) (pids : List String) :
    ∀ session : PanelSession,
      (runPersonas svc jdec pc m pids session).2.exchange_count
        = session.exchange_count := by
  induction pids with
  | nil => intro session; rfl
  | cons pid rest ih =>
    intro session
    unfold runPersonas
    rcases pc.lookup pid with _ | cfg
    · exact ih session
    · dsimp only
      exact ih _

/-- The yielded responses carry exactly the configured, non-skipped
persona ids, in order — whatever the service and the decoder do. -/
theorem runPersonas_map_persona_id (svc : String → Except String String)
    (jdec : String → JsonOutcome) (pc : List (String × PersonaConfig))
    (m : String) (pids : List String) :
    ∀ session : PanelSession,
      (runPersonas svc jdec pc m pids session).1.map (fun r => r.persona_id)
        = pids.filter (fun pid => (pc.lookup pid).isSome) := by
  induction pids with
  | nil => intro session; rfl
  | cons pid rest ih =>
    intro session
    unfold runPersonas
    rw [List.filter_cons]
    rcases pc.lookup pid with _ | cfg
    · rw [if_neg (by simp)]
      exact ih session
    · rw [if_pos (by simp)]
      dsimp only
      rw [List.map_cons, generate_persona_response_persona_id, ih]

/-- Pushing a response while the last exchange already answers the same
message appends it to that exchange's response list. -/
theorem pushResponse_last_same (pre : List Exchange) (rs : List PanelResponse)
    (m : String) (r : PanelResponse) :
    pushResponse (pre ++ [{ user_message := m, responses := rs }]) m r
      = pre ++ [{ user_message := m, responses := rs ++ [r] }] := by
  have hne : needNewExchange (pre ++ [{ user_message := m, responses := rs }]) m
      = false := by
    unfold needNewExchange
    rw [List.getLast?_concat]
    dsimp only
    exact bne_self_eq_false m
  unfold pushResponse
  rw [hne, if_neg Bool.false_ne_true]
  dsimp only
  rw [List.getLast?_concat]
  dsimp only
  rw [List.dropLast_concat]

/-- While the last exchange already answers `m`, the persona loop only
appends responses to that exchange. -/
theorem runPersonas_hist_app (svc : String → Except String String)
    (jdec : String → JsonOutcome) (pc : List (String × PersonaConfig))
    (m : String) (pids : List String) :
    ∀ (session : PanelSession) (pre : List Exchange) (rs : List PanelResponse),
      session.discussion_history = pre ++ [{ user_message := m, responses := rs }] →
      ∃ rs', (runPersonas svc jdec pc m pids session).2.discussion_history
        = pre ++ [{ user_message := m, responses := rs ++ rs' }] := by
  induction pids with
  | nil =>
    intro session pre rs h
    exact ⟨[], by simpa using h⟩
  | cons pid rest ih =>
    intro session pre rs h
    unfold runPersonas
    rcases pc.lookup pid with _ | cfg
    · exact ih session pre rs h
    · dsimp only
      set r := { generate_persona_response svc jdec session pid cfg m with
        references := detect_persona_references
          (generate_persona_response svc jdec session pid cfg m).response pc }
      rw [h, pushResponse_last_same]
      obtain ⟨rs'', h''⟩ := ih
        { session with discussion_history :=
            pre ++ [{ user_message := m, responses := rs ++ [r] }] }
        pre (rs ++ [r]) rfl
      refine ⟨r :: rs'', ?_⟩
      rw [h'']
      simp [List.append_assoc]

/-- When the history is empty or its last exchange answers a different
message, the persona loop opens exactly one new exchange for `m` as soon
as one configured persona is processed. -/
theorem runPersonas_hist_fresh (svc : String → Except String String)
    (jdec : String → JsonOutcome) (pc : List (String × PersonaConfig))
    (m : String) (pids : List String) :
    ∀ session : PanelSession,
      (∀ ex, session.discussion_history.getLast? = some ex → ex.user_message ≠ m) →
      (∃ pid ∈ pids, (pc.lookup pid).isSome = true) →
      ∃ rs, (runPersonas svc jdec pc m pids session).2.discussion_history
        = session.discussion_history ++ [{ user_message := m, responses := rs }] := by
  induction pids with
  | nil =>
    intro session _ hex
    exact absurd hex (by simp)
  | cons pid rest ih =>
    intro session hfresh hex
    unfold runPersonas
    rcases hc : pc.lookup pid with _ | cfg
    · have hex' : ∃ p ∈ rest, (pc.lookup p).isSome = true := by
        rcases hex with ⟨p, hp, hps⟩
        rcases List.mem_cons.mp hp with rfl | hmem
        · rw [hc] at hps
          exact absurd hps (by simp)
        · exact ⟨p, hmem, hps⟩
      exact ih session hfresh hex'
    · dsimp only
      set r := { generate_persona_response svc jdec session pid cfg m with
        references := detect_persona_references
          (generate_persona_response svc jdec session pid cfg m).response pc }
      have hne : needNewExchange session.discussion_history m = true := by
        unfold needNewExchange
        rcases hl : session.discussion_history.getLast? with _ | ex
        · rfl
        · exact bne_iff_ne.mpr (hfresh ex hl)
      have hpush : pushResponse session.discussion_history m r
          = session.discussion_history ++ [{ user_message := m, responses := [r] }] := by
        unfold pushResponse
        rw [hne, if_pos rfl]
        dsimp only
        rw [List.getLast?_concat]
        dsimp only
        rw [List.dropLast_concat]
        rfl
      rw [hpush]
      obtain ⟨rs'', h''⟩ := runPersonas_hist_app svc jdec pc m rest
        { session with discussion_history :=
            session.discussion_history ++ [{ user_message := m, responses := [r] }] }
        session.discussion_history [r] rfl
      exact ⟨r :: rs'', h''⟩

set_option maxRecDepth 4096 in
/-- With an empty or whitespace-only message, every yielded response is
the shocked error fallback announcing the empty-message failure. -/
theorem runPersonas_empty_message_moods (svc : String → Except String String)
    (jdec : String → JsonOutcome) (pc : List (String × PersonaConfig))
    (m : String) (pids : List String) (hm : pyStrip m = "") :
    ∀ session : PanelSession, ∀ r ∈ (runPersonas svc jdec pc m pids session).1,
      r.mood = "shocked" ∧ r.response
        = "[Error: I\x27m experiencing technical difficulties. User message cannot be empty]" := by
  induction pids with
  | nil =>
    intro session r hr
    exact absurd hr (by simp [runPersonas])
  | cons pid rest ih =>
    intro session
    unfold runPersonas
    rcases pc.lookup pid with _ | cfg
    · exact ih session
    · dsimp only
      intro r hr
      rcases List.mem_cons.mp hr with rfl | hmem
      · rw [generate_persona_response_empty_message svc jdec session pid cfg m hm]
        refine ⟨rfl, ?_⟩
        show "[Error: I\x27m experiencing technical difficulties. "
            ++ ("User message cannot be empty".take 50 ++ "]") = _
        decide
      · exact ih _ r hmem

/-! ## C1 -/

/-- C1 counterexample: a completed turn in which every persona was skipped
increments `exchange_count` to 1 yet appends no `Exchange` at all, so the
claimed invariant `exchange_count = |discussion_history|` and the claimed
"appends exactly one Exchange ... regardless of how many personas were
skipped" both fail after this call. -/
theorem C1_counterexample :
    (iter_panel_responses (fun _ => .error "down") (fun _ => JsonOutcome.decodeError)
        sampleSession samplePersonas "hello"
        ["dr-ada-sterling", "dr-rex-hardcastle"] 0).2.exchange_count = 1 ∧
    (iter_panel_responses (fun _ => .error "down") (fun _ => JsonOutcome.decodeError)
        sampleSession samplePersonas "hello"
        ["dr-ada-sterling", "dr-rex-hardcastle"] 0).2.discussion_history = [] :=
  ⟨rfl, rfl⟩

/-- C1 (amended): a fully drained turn always increases `exchange_count`
by exactly 1; it appends exactly one `Exchange` provided at least one
non-skipped persona has a configuration and the last exchange in history
(if any) answers a different user message — under those conditions the
counter/history-length invariant is preserved. -/
theorem C1_amended (svc : String → Except String String)
    (jdec : String → JsonOutcome) (personas_config : List (String × PersonaConfig))
    (user_message : String) (skip_personas : List String)
    (session : PanelSession) (now : Int)
    (hproc : ∃ pid ∈ session.persona_ids.filter
        (fun p => !(skip_personas.contains p)), (personas_config.lookup pid).isSome = true)
    (hfresh : ∀ ex, session.discussion_history.getLast? = some ex →
        ex.user_message ≠ user_message) :
    (iter_panel_responses svc jdec session personas_config user_message skip_personas
        now).2.exchange_count = session.exchange_count + 1 ∧
    (iter_panel_responses svc jdec session personas_config user_message skip_personas
        now).2.discussion_history.length = session.discussion_history.length + 1 ∧
    (session.exchange_count = session.discussion_history.length →
      (iter_panel_responses svc jdec session personas_config user_message skip_personas
          now).2.exchange_count
        = (iter_panel_responses svc jdec session personas_config user_message skip_personas
            now).2.discussion_history.length) := by
  have hcount : (iter_panel_responses svc jdec session personas_config user_message
      skip_personas now).2.exchange_count = session.exchange_count + 1 := by
    unfold iter_panel_responses
    dsimp only
    rw [runPersonas_exchange_count]
  have hlen : (iter_panel_responses svc jdec session personas_config user_message
      skip_personas now).2.discussion_history.length
      = session.discussion_history.length + 1 := by
    unfold iter_panel_responses
    dsimp only
    obtain ⟨rs, hrs⟩ := runPersonas_hist_fresh svc jdec personas_config user_message
      (session.persona_ids.filter (fun p => !(skip_personas.contains p)))
      session hfresh hproc
    rw [hrs]
    simp
  exact ⟨hcount, hlen, fun h => by rw [hcount, hlen, h]⟩

/-- Witness for C1 (amended) on a concrete un-skipped turn: the counter
and the history length both move from 0 to 1. -/
theorem C1_amended_witness :
    (iter_panel_responses (fun _ => .error "down") (fun _ => JsonOutcome.decodeError)
        sampleSession samplePersonas "hello" [] 0).2.exchange_count = 1 ∧
    (iter_panel_responses (fun _ => .error "down") (fun _ => JsonOutcome.decodeError)
        sampleSession samplePersonas "hello" [] 0).2.discussion_history.length = 1 := by
  have h := C1_amended (fun _ => .error "down") (fun _ => JsonOutcome.decodeError)
    samplePersonas "hello" [] sampleSession 0
    ⟨"dr-ada-sterling", by decide, by decide⟩
    (by intro ex hex; simp [sampleSession] at hex)
  exact ⟨h.1, h.2.1⟩

/-! ## C2 -/

/-- C2: when every non-skipped persona id is configured, one full turn
yields exactly one `PanelResponse` per non-skipped persona, labelled with
the persona ids in `persona_ids` order (minus the skipped ids). -/
theorem C2_turn_yields_one_response_per_persona (svc : String → Except String String)
    (jdec : String → JsonOutcome) (session : PanelSession)
    (personas_config : List (String × PersonaConfig)) (user_message : String)
    (skip_personas : List String) (now : Int)
    (hm : pyStrip user_message ≠ "")
    (hconf : ∀ pid ∈ session.persona_ids.filter (fun p => !(skip_personas.contains p)),
      (personas_config.lookup pid).isSome = true) :
    (iter_panel_responses svc jdec session personas_config user_message skip_personas
        now).1.map (fun r => r.persona_id)
      = session.persona_ids.filter (fun p => !(skip_personas.contains p)) ∧
    (iter_panel_responses svc jdec session personas_config user_message skip_personas
        now).1.length
      = (session.persona_ids.filter (fun p => !(skip_personas.contains p))).length := by
  have hmap : (iter_panel_responses svc jdec session personas_config user_message
      skip_personas now).1.map (fun r => r.persona_id)
      = session.persona_ids.filter (fun p => !(skip_personas.contains p)) := by
    unfold iter_panel_responses
    dsimp only
    rw [runPersonas_map_persona_id]
    exact List.filter_eq_self.mpr hconf
  refine ⟨hmap, ?_⟩
  have h := congrArg List.length hmap
  simpa using h

/-- Witness for C2: a concrete two-persona turn with one skip yields
exactly the remaining persona, in order. -/
theorem C2_turn_yields_one_response_per_persona_witness :
    (iter_panel_responses (fun _ => .ok "fine") (fun _ => JsonOutcome.decodeError)
        sampleSession samplePersonas "I feel overwhelmed" ["dr-rex-hardcastle"] 0).1.map
        (fun r => r.persona_id) = ["dr-ada-sterling"] :=
  (C2_turn_yields_one_response_per_persona (fun _ => .ok "fine")
    (fun _ => JsonOutcome.decodeError) sampleSession samplePersonas
    "I feel overwhelmed" ["dr-rex-hardcastle"] 0 (by decide) (by decide)).1

/-! ## C5 -/

/-- C5: any exception while generating one persona's response — an empty
message or a failing service call — is converted locally into the shocked
technical-difficulty fallback, and the turn still yields one response per
configured non-skipped persona whatever the service does: one persona's
failure never aborts the turn. -/
theorem C5_persona_failure_isolated (session : PanelSession) (pid : String)
    (cfg : PersonaConfig) (m : String) (pc : List (String × PersonaConfig))
    (skip : List String) (now : Int) :
    (pyStrip m = "" → ∀ svc jdec,
      generate_persona_response svc jdec session pid cfg m
        = error_fallback_response pid cfg "User message cannot be empty") ∧
    (pyStrip m ≠ "" → ∀ e jdec,
      generate_persona_response (fun _ => .error e) jdec session pid cfg m
        = error_fallback_response pid cfg e) ∧
    (∀ e, (error_fallback_response pid cfg e).mood = "shocked") ∧
    (∀ svc jdec,
      (iter_panel_responses svc jdec session pc m skip now).1.map (fun r => r.persona_id)
        = (session.persona_ids.filter (fun p => !(skip.contains p))).filter
            (fun p => (pc.lookup p).isSome)) := by
  refine ⟨?_, ?_, fun e => rfl, ?_⟩
  · intro hm svc jdec
    exact generate_persona_response_empty_message svc jdec session pid cfg m hm
  · intro hm e jdec
    exact generate_persona_response_svc_error jdec session pid cfg m e hm
  · intro svc jdec
    unfold iter_panel_responses
    dsimp only
    exact runPersonas_map_persona_id svc jdec pc m _ session

/-- Witness for C5: a failing service call on a concrete persona produces
the shocked fallback, and the same failing service still yields both
personas' responses for the whole turn. -/
theorem C5_persona_failure_isolated_witness :
    generate_persona_response (fun _ => .error "boom")
        (fun _ => JsonOutcome.decodeError) sampleSession "dr-ada-sterling" adaConfig "hello"
      = error_fallback_response "dr-ada-sterling" adaConfig "boom" ∧
    (iter_panel_responses (fun _ => .error "boom") (fun _ => JsonOutcome.decodeError)
        sampleSession samplePersonas "hello" [] 0).1.map (fun r => r.persona_id)
      = ["dr-ada-sterling", "dr-rex-hardcastle"] := by
  have h := C5_persona_failure_isolated sampleSession "dr-ada-sterling" adaConfig "hello"
    samplePersonas [] 0
  exact ⟨h.2.1 (by decide) "boom" (fun _ => JsonOutcome.decodeError),
    h.2.2.2 (fun _ => .error "boom") (fun _ => JsonOutcome.decodeError)⟩

/-! ## C10 -/

/-- C10: a full turn on an empty or whitespace-only message does not
raise: every configured non-skipped persona yields a shocked fallback
response naming the empty-message error, an exchange for the empty message
is appended (on a fresh message boundary), and `exchange_count` is still
incremented by 1. -/
theorem C10_empty_message_turn (svc : String → Except String String)
    (jdec : String → JsonOutcome) (pc : List (String × PersonaConfig))
    (skip : List String) (session : PanelSession) (now : Int) (m : String)
    (hm : pyStrip m = "")
    (hconf : ∀ pid ∈ session.persona_ids.filter (fun p => !(skip.contains p)),
      (pc.lookup pid).isSome = true)
    (hne : session.persona_ids.filter (fun p => !(skip.contains p)) ≠ [])
    (hfresh : ∀ ex, session.discussion_history.getLast? = some ex →
      ex.user_message ≠ m) :
    ((iter_panel_responses svc jdec session pc m skip now).1.map (fun r => r.persona_id)
        = session.persona_ids.filter (fun p => !(skip.contains p))) ∧
    (∀ r ∈ (iter_panel_responses svc jdec session pc m skip now).1,
        r.mood = "shocked" ∧ r.response
          = "[Error: I\x27m experiencing technical difficulties. User message cannot be empty]") ∧
    (∃ rs, (iter_panel_responses svc jdec session pc m skip now).2.discussion_history
        = session.discussion_history ++ [{ user_message := m, responses := rs }]) ∧
    (iter_panel_responses svc jdec session pc m skip now).2.exchange_count
      = session.exchange_count + 1 := by
  have hex : ∃ pid ∈ session.persona_ids.filter (fun p => !(skip.contains p)),
      (pc.lookup pid).isSome = true := by
    rcases List.exists_mem_of_ne_nil _ hne with ⟨p, hp⟩
    exact ⟨p, hp, hconf p hp⟩
  refine ⟨?_, ?_, ?_, ?_⟩
  · unfold iter_panel_responses
    dsimp only
    rw [runPersonas_map_persona_id]
    exact List.filter_eq_self.mpr hconf
  · intro r hr
    unfold iter_panel_responses at hr
    dsimp only at hr
    exact runPersonas_empty_message_moods svc jdec pc m _ hm session r hr
  · unfold iter_panel_responses
    dsimp only
    exact runPersonas_hist_fresh svc jdec pc m _ session hfresh hex
  · unfold iter_panel_responses
    dsimp only
    rw [runPersonas_exchange_count]

/-- Witness for C10: a whitespace-only message on a concrete two-persona
session yields two shocked responses and still bumps the counter. -/
theorem C10_empty_message_turn_witness :
    (iter_panel_responses (fun _ => .ok "ignored") (fun _ => JsonOutcome.decodeError)
        sampleSession samplePersonas " " [] 0).2.exchange_count = 1 ∧
    (∀ r ∈ (iter_panel_responses (fun _ => .ok "ignored")
        (fun _ => JsonOutcome.decodeError) sampleSession samplePersonas " " [] 0).1,
      r.mood = "shocked") := by
  have h := C10_empty_message_turn (fun _ => .ok "ignored")
    (fun _ => JsonOutcome.decodeError) samplePersonas [] sampleSession 0 " "
    (by decide) (by decide) (by decide)
    (by intro ex hex; simp [sampleSession] at hex)
  exact ⟨h.2.2.2, fun r hr => (h.2.1 r hr).1⟩

/-! ## C4 -/

/-- Stripping whitespace is idempotent. -/
theorem pyStrip_idem (s : String) : pyStrip (pyStrip s) = pyStrip s := by
  have key : ∀ l : List Char,
      ((((l.dropWhile Char.isWhitespace).reverse.dropWhile
            Char.isWhitespace).reverse.dropWhile
          Char.isWhitespace).reverse.dropWhile Char.isWhitespace).reverse
        = ((l.dropWhile Char.isWhitespace).reverse.dropWhile Char.isWhitespace).reverse := by
    intro l
    set t := l.dropWhile Char.isWhitespace with ht
    have hdropt : t.dropWhile Char.isWhitespace = t := by
      rw [ht]
      exact List.dropWhile_idempotent _ _
    have hu : ((t.reverse.dropWhile Char.isWhitespace).reverse).dropWhile Char.isWhitespace
        = (t.reverse.dropWhile Char.isWhitespace).reverse := by
      have hpre : (t.reverse.dropWhile Char.isWhitespace).reverse <+: t := by
        have h := List.rdropWhile_prefix Char.isWhitespace t
        simpa [List.rdropWhile] using h
      rcases hcase : (t.reverse.dropWhile Char.isWhitespace).reverse with _ | ⟨c, cs⟩
      · rfl
      · rw [hcase] at hpre
        obtain ⟨rest, hrest⟩ := hpre
        have ht' : t = c :: (cs ++ rest) := by rw [← hrest]; simp
        have hc : Char.isWhitespace c = false := by
          by_contra hcc
          have hcc' : Char.isWhitespace c = true := by
            revert hcc
            cases Char.isWhitespace c <;> simp
          rw [ht', List.dropWhile_cons, if_pos hcc'] at hdropt
          have hlen := congrArg List.length hdropt
          have hsuf : (cs ++ rest).dropWhile Char.isWhitespace <:+ (cs ++ rest) :=
            List.dropWhile_suffix _
          have hle := hsuf.length_le
          simp at hlen hle
          omega
        simp [List.dropWhile_cons, hc]
    rw [hu]
    have hidem : List.rdropWhile Char.isWhitespace (List.rdropWhile Char.isWhitespace t)
        = List.rdropWhile Char.isWhitespace t := List.rdropWhile_idempotent _ _
    simpa [List.rdropWhile] using hidem
  exact congrArg String.mk (key s.data)

/-- C4 counterexample: on raw service text `Sure! {not valid json} Hope
this helps.` the extracted span `{not valid json}` fails to decode
(`json.loads` raises on it, modelled by the constant-failure decoder), and
the code uses the *span* — not the entire raw text — as the response,
contradicting the claim's fallback description. -/
theorem C4_counterexample :
    (generate_persona_response
        (fun _ => .ok "Sure! \x7bnot valid json\x7d Hope this helps.")
        (fun _ => JsonOutcome.decodeError) sampleSession "dr-ada-sterling" adaConfig
        "hello").response = "\x7bnot valid json\x7d" ∧
    (generate_persona_response
        (fun _ => .ok "Sure! \x7bnot valid json\x7d Hope this helps.")
        (fun _ => JsonOutcome.decodeError) sampleSession "dr-ada-sterling" adaConfig
        "hello").mood = "neutral" ∧
    "\x7bnot valid json\x7d" ≠ "Sure! \x7bnot valid json\x7d Hope this helps." := by
  refine ⟨rfl, rfl, by decide⟩

/-- C4 (amended): parsing extracts the span from the first opening brace
to the last closing brace of the stripped raw text and decodes it; on
decode failure the extracted span (or the whole stripped text when no
span exists) — not the entire raw text — becomes the response, with mood
`neutral`; a decoded `mood` outside the enumeration, or an absent one, is
coerced to `neutral`, while the decoded `response` field is used verbatim
when present and non-blank. -/
theorem C4_parse_amended (jdec : String → JsonOutcome) (session : PanelSession)
    (pid : String) (cfg : PersonaConfig) (m : String) (raw : String)
    (hm : pyStrip m ≠ "") :
    (∀ s, extractJsonSpan (pyStrip raw) = some s →
      jdec s = JsonOutcome.decodeError → pyStrip s ≠ "" →
      (generate_persona_response (fun _ => .ok raw) jdec session pid cfg m).response = s ∧
      (generate_persona_response (fun _ => .ok raw) jdec session pid cfg m).mood
        = "neutral") ∧
    (extractJsonSpan (pyStrip raw) = none →
      jdec (pyStrip raw) = JsonOutcome.decodeError → pyStrip raw ≠ "" →
      (generate_persona_response (fun _ => .ok raw) jdec session pid cfg m).response
        = pyStrip raw ∧
      (generate_persona_response (fun _ => .ok raw) jdec session pid cfg m).mood
        = "neutral") ∧
    (∀ s fields mood, extractJsonSpan (pyStrip raw) = some s →
      jdec s = JsonOutcome.dict fields → fields.lookup "mood" = some mood →
      VALID_MOODS.contains mood = false →
      (generate_persona_response (fun _ => .ok raw) jdec session pid cfg m).mood
        = "neutral") ∧
    (∀ s fields, extractJsonSpan (pyStrip raw) = some s →
      jdec s = JsonOutcome.dict fields → fields.lookup "mood" = none →
      (generate_persona_response (fun _ => .ok raw) jdec session pid cfg m).mood
        = "neutral") ∧
    (∀ s fields resp, extractJsonSpan (pyStrip raw) = some s →
      jdec s = JsonOutcome.dict fields → fields.lookup "response" = some resp →
      pyStrip resp ≠ "" →
      (generate_persona_response (fun _ => .ok raw) jdec session pid cfg m).response
        = resp) := by
  have hbuild := build_discussion_context_ok session pid cfg m hm
  refine ⟨?_, ?_, ?_, ?_, ?_⟩
  · intro s hspan hdec hs
    unfold generate_persona_response
    rw [hbuild]
    dsimp only
    rw [hspan]
    dsimp only
    rw [hdec]
    dsimp only
    have hcond : ¬ (s = "" ∨ pyStrip s = "") := by
      rintro (h1 | h2)
      · exact hs (by rw [h1]; decide)
      · exact hs h2
    constructor
    · show (if s = "" ∨ pyStrip s = "" then _ else s) = s
      rw [if_neg hcond]
    · show (if VALID_MOODS.contains DEFAULT_MOOD = true then DEFAULT_MOOD
          else DEFAULT_MOOD) = "neutral"
      rw [ite_self]
      rfl
  · intro hspan hdec hs
    unfold generate_persona_response
    rw [hbuild]
    dsimp only
    rw [hspan]
    dsimp only
    rw [hdec]
    dsimp only
    have hcond : ¬ (pyStrip raw = "" ∨ pyStrip (pyStrip raw) = "") := by
      rintro (h1 | h2)
      · exact hs h1
      · rw [pyStrip_idem] at h2
        exact hs h2
    constructor
    · show (if pyStrip raw = "" ∨ pyStrip (pyStrip raw) = "" then _
          else pyStrip raw) = pyStrip raw
      rw [if_neg hcond]
    · show (if VALID_MOODS.contains DEFAULT_MOOD = true then DEFAULT_MOOD
          else DEFAULT_MOOD) = "neutral"
      rw [ite_self]
      rfl
  · intro s fields mood hspan hdec hlook hinv
    unfold generate_persona_response
    rw [hbuild]
    dsimp only
    rw [hspan]
    dsimp only
    rw [hdec]
    dsimp only
    rw [hlook]
    show (if VALID_MOODS.contains mood = true then mood else DEFAULT_MOOD) = "neutral"
    rw [hinv, if_neg Bool.false_ne_true]
    rfl
  · intro s fields hspan hdec hlook
    unfold generate_persona_response
    rw [hbuild]
    dsimp only
    rw [hspan]
    dsimp only
    rw [hdec]
    dsimp only
    rw [hlook]
    show (if VALID_MOODS.contains DEFAULT_MOOD = true then DEFAULT_MOOD
        else DEFAULT_MOOD) = "neutral"
    rw [ite_self]
    rfl
  · intro s fields resp hspan hdec hlook hrs
    unfold generate_persona_response
    rw [hbuild]
    dsimp only
    rw [hspan]
    dsimp only
    rw [hdec]
    dsimp only
    rw [hlook]
    have hcond : ¬ (resp = "" ∨ pyStrip resp = "") := by
      rintro (h1 | h2)
      · exact hrs (by rw [h1]; decide)
      · exact hrs h2
    show (if resp = "" ∨ pyStrip resp = "" then _ else resp) = resp
    rw [if_neg hcond]

/-- Witness for C4 (amended): a concrete raw text whose span decodes to a
dict with an invalid mood is coerced to `neutral`, and the decode-failure
span case from the counterexample input. -/
theorem C4_parse_amended_witness :
    (generate_persona_response
        (fun _ => .ok "\x7b\"response\": \"Rest today.\", \"mood\": \"gleeful\"\x7d")
        (fun _ => JsonOutcome.dict [("response", "Rest today."), ("mood", "gleeful")])
        sampleSession "dr-ada-sterling" adaConfig "hello").mood = "neutral" ∧
    (generate_persona_response
        (fun _ => .ok "\x7b\"response\": \"Rest today.\", \"mood\": \"gleeful\"\x7d")
        (fun _ => JsonOutcome.dict [("response", "Rest today."), ("mood", "gleeful")])
        sampleSession "dr-ada-sterling" adaConfig "hello").response = "Rest today." := by
  have h := C4_parse_amended
    (fun _ => JsonOutcome.dict [("response", "Rest today."), ("mood", "gleeful")])
    sampleSession "dr-ada-sterling" adaConfig "hello"
    "\x7b\"response\": \"Rest today.\", \"mood\": \"gleeful\"\x7d" (by decide)
  refine ⟨?_, ?_⟩
  · exact h.2.2.1 "\x7b\"response\": \"Rest today.\", \"mood\": \"gleeful\"\x7d"
      [("response", "Rest today."), ("mood", "gleeful")] "gleeful" rfl rfl rfl (by decide)
  · exact h.2.2.2.2 "\x7b\"response\": \"Rest today.\", \"mood\": \"gleeful\"\x7d"
      [("response", "Rest today."), ("mood", "gleeful")] "Rest today." rfl rfl rfl
      (by decide)

/-! ## C6 -/

/-- One step of the reference-detection loop equals the spec-style rule
check: the nested if-chain of the source is the guarded disjunction
(full name) or (at least two tokens and (first two tokens or (final token
longer than 3 and matched))). -/
theorem detectReferencesGo_cons (lowtext : String) (persona_id : String)
    (persona_data : PersonaConfig) (rest : List (String × PersonaConfig)) :
    detectReferencesGo lowtext ((persona_id, persona_data) :: rest)
      = (if referenceRuleMatches lowtext persona_data
          then persona_id :: detectReferencesGo lowtext rest
          else detectReferencesGo lowtext rest) := by
  simp only [detectReferencesGo, referenceRuleMatches]
  by_cases h0 : persona_data.name.getD "" = ""
  · simp [h0]
  · rw [if_neg h0, if_neg h0]
    by_cases hA : pyContains lowtext
        (pyLower (stripCredentialSuffix (persona_data.name.getD ""))) = true
    · simp [hA]
    · by_cases hL2 : (pySplitWs (stripCredentialSuffix
          (persona_data.name.getD ""))).length ≥ 2
      · by_cases hB : pyContains lowtext (pyLower (pyJoin " "
            ((pySplitWs (stripCredentialSuffix (persona_data.name.getD ""))).take 2))) = true
        · simp [hA, hL2, hB]
        · by_cases hL3 : ((pySplitWs (stripCredentialSuffix
              (persona_data.name.getD ""))).getLastD "").length > 3
          · by_cases hC : pyContains lowtext (pyLower ((pySplitWs (stripCredentialSuffix
                (persona_data.name.getD ""))).getLastD "")) = true
            · simp [hA, hL2, hB, hL3, hC]
            · simp [hA, hL2, hB, hL3, hC]
          · simp [hA, hL2, hB, hL3]
      · simp [hA, hL2]

/-- C6 counterexample: the detector does not exclude the author.  In a
turn where Dr. Ada Sterling's generated response mentions her own name,
her own id lands in her `references`; the spec-as-written detector
(author excluded) returns the empty set on the same inputs, so the claim
fails at this input. -/
theorem C6_counterexample :
    detect_persona_references "As Dr. Ada Sterling, I hear your concern."
        [("dr-ada-sterling", adaConfig)] = ["dr-ada-sterling"] ∧
    detect_references_spec_author "dr-ada-sterling"
        "As Dr. Ada Sterling, I hear your concern."
        [("dr-ada-sterling", adaConfig)] = [] ∧
    (iter_panel_responses
        (fun _ => .ok "\x7b\"response\": \"As Dr. Ada Sterling, I recommend rest.\", \"mood\": \"neutral\"\x7d")
        (fun _ => JsonOutcome.dict
          [("response", "As Dr. Ada Sterling, I recommend rest."), ("mood", "neutral")])
        sampleSession samplePersonas "hello" ["dr-rex-hardcastle"] 0).1.map
        (fun r => r.references) = [["dr-ada-sterling"]] := by
  refine ⟨rfl, rfl, rfl⟩

/-- C6 (amended): the detector behaves exactly as the spec's rules
describe — case-insensitive matching of the credential-stripped full
name, or, for names of at least two tokens, of the first two tokens or of
a final token longer than 3 characters — for every known persona
*including* the author (which the function cannot and does not exclude),
skipping personas with an empty display name; the result is used as a
set. -/
theorem C6_detect_amended (text : String) (personas : List (String × PersonaConfig)) :
    detect_persona_references text personas = detect_references_amended text personas := by
  unfold detect_persona_references detect_references_amended
  induction personas with
  | nil => rfl
  | cons entry rest ih =>
    obtain ⟨persona_id, persona_data⟩ := entry
    rw [detectReferencesGo_cons, List.filterMap_cons]
    by_cases h : referenceRuleMatches (pyLower text) persona_data = true
    · simp [h, ih]
    · simp [h, ih]

/-! ## C3 -/

/-- Appending preserves the string data. -/
theorem str_data_append (a b : String) : (a ++ b).data = a.data ++ b.data := rfl

/-- A list is a `isPrefixOf` witness of itself extended. -/
theorem isPrefixOf_append (a b : List Char) : a.isPrefixOf (a ++ b) = true := by
  induction a with
  | nil => simp [List.isPrefixOf]
  | cons c cs ih => simp [List.isPrefixOf, ih]

/-- A string starting with `a` differs from any string `a` is not a
prefix of. -/
theorem append_ne_of_not_prefix (a b t : String)
    (h : a.data.isPrefixOf t.data = false) : a ++ b ≠ t := by
  intro he
  have hd : a.data ++ b.data = t.data := by
    rw [← he]
    exact (str_data_append a b).symm
  have hp : a.data.isPrefixOf t.data = true := by
    rw [← hd]
    exact isPrefixOf_append a.data b.data
  rw [hp] at h
  exact Bool.noConfusion h

/-- The prior-responses section marker is none of the five context parts
that precede the branch on previous responses, whatever the system
prompt, persona count and user message are. -/
theorem marker_not_mem_head (sp n um : String) :
    "\nPREVIOUS PANELIST RESPONSES:" ∉
      ["SYSTEM INSTRUCTIONS:\n" ++ (sp ++ "\n"),
       "\nPANEL DISCUSSION CONTEXT:",
       "You are participating in a panel discussion with " ++ (n ++ " therapeutic personas."),
       "Your goal is to provide your unique perspective while being aware of what others have said.\n",
       "\nUSER\x27S MESSAGE:\n" ++ (um ++ "\n")] := by
  intro hmem
  rcases List.mem_cons.mp hmem with h | hmem
  · exact append_ne_of_not_prefix _ _ _ (by decide) h.symm
  rcases List.mem_cons.mp hmem with h | hmem
  · exact absurd h (by decide)
  rcases List.mem_cons.mp hmem with h | hmem
  · exact append_ne_of_not_prefix _ _ _ (by decide) h.symm
  rcases List.mem_cons.mp hmem with h | hmem
  · exact absurd h (by decide)
  rcases List.mem_cons.mp hmem with h | hmem
  · exact append_ne_of_not_prefix _ _ _ (by decide) h.symm
  · exact absurd hmem (List.not_mem_nil _)

/-- The recent-responses pool is non-empty exactly when one of the last
`MAX_PREVIOUS_EXCHANGES` exchanges holds at least one response. -/
theorem recent_responses_ne_nil_iff (session : PanelSession) :
    _get_recent_responses session ≠ [] ↔
      ∃ ex ∈ session.discussion_history.drop
        (session.discussion_history.length - MAX_PREVIOUS_EXCHANGES),
        ex.responses ≠ [] := by
  unfold _get_recent_responses
  by_cases h : session.discussion_history = []
  · rw [if_pos h, h]
    simp
  · rw [if_neg h]
    dsimp only
    constructor
    · intro hne
      by_contra hforall
      push_neg at hforall
      apply hne
      rw [List.flatten_eq_nil_iff]
      intro l hl
      rcases List.mem_map.mp hl with ⟨ex, hex, rfl⟩
      exact hforall ex hex
    · rintro ⟨ex, hex, hne⟩ hfl
      rw [List.flatten_eq_nil_iff] at hfl
      exact hne (hfl _ (List.mem_map_of_mem _ hex))

/-- C3 counterexample: with one completed exchange in history and a fresh
user message, no panelist has yet answered within the current exchange —
there is not even a history entry for this message — and still the built
context contains the prior-responses section, fed from the previous
exchange.  The claimed "if and only if earlier panelists have already
answered within the current exchange" therefore fails. -/
theorem C3_counterexample :
    (∀ ex ∈ historySession.discussion_history,
      ex.user_message ≠ "What should I do next?") ∧
    "\nPREVIOUS PANELIST RESPONSES:" ∈
      discussion_context_parts historySession adaConfig "What should I do next?" := by
  constructor
  · decide
  · decide

/-- C3 (amended): the context contains the prior-responses section iff
any of the most recent `MAX_PREVIOUS_EXCHANGES` exchanges of
`discussion_history` holds at least one response — whether from the
partial exchange of the live turn, which is always the last history
entry and hence always inside the window, or from completed earlier
exchanges — and every response in that window appears verbatim, with its
panelist's name, as a bullet line of the context. -/
theorem C3_context_amended (session : PanelSession) (cfg : PersonaConfig) (m : String) :
    (("\nPREVIOUS PANELIST RESPONSES:" ∈ discussion_context_parts session cfg m) ↔
      ∃ ex ∈ session.discussion_history.drop
        (session.discussion_history.length - MAX_PREVIOUS_EXCHANGES),
        ex.responses ≠ []) ∧
    (∀ r ∈ _get_recent_responses session,
      ("â€¢ " ++ (r.persona_name ++ (" said: \"" ++ (r.response ++ "\""))))
        ∈ discussion_context_parts session cfg m) := by
  constructor
  · rw [← recent_responses_ne_nil_iff session]
    unfold discussion_context_parts
    dsimp only
    by_cases h : _get_recent_responses session = []
    · rw [if_pos h]
      constructor
      · intro hmem
        exfalso
        rcases List.mem_append.mp hmem with h1 | h2
        · exact marker_not_mem_head _ _ _ h1
        · rcases List.mem_cons.mp h2 with heq | h3
          · exact absurd heq (by decide)
          · exact absurd h3 (List.not_mem_nil _)
      · intro hne
        exact absurd h hne
    · rw [if_neg h]
      constructor
      · intro _
        exact h
      · intro _
        refine List.mem_append.mpr (Or.inl ?_)
        refine List.mem_append.mpr (Or.inl ?_)
        exact List.mem_append.mpr (Or.inr (List.mem_cons_self _ _))
  · intro r hr
    unfold discussion_context_parts
    dsimp only
    have h : _get_recent_responses session ≠ [] := by
      intro h0
      rw [h0] at hr
      exact absurd hr (List.not_mem_nil r)
    rw [if_neg h]
    refine List.mem_append.mpr (Or.inl ?_)
    refine List.mem_append.mpr (Or.inr ?_)
    exact List.mem_map_of_mem _ hr

/-- Witness for C3 (amended) on the one-exchange session: the section is
present and the recorded response appears as a bullet line. -/
theorem C3_context_amended_witness :
    "\nPREVIOUS PANELIST RESPONSES:" ∈
      discussion_context_parts historySession adaConfig "hello" ∧
    ("â€¢ " ++ ("Dr. Ada Sterling" ++ (" said: \"" ++ ("Take a slow breath." ++ "\""))))
      ∈ discussion_context_parts historySession adaConfig "hello" := by
  constructor
  · exact (C3_context_amended historySession adaConfig "hello").1.mpr
      ⟨{ user_message := "hi", responses := [sampleResponse] }, by decide, by decide⟩
  · exact (C3_context_amended historySession adaConfig "hello").2 sampleResponse
      (by decide)

end Panel
